import Mathlib

/-!
Verification development for the photo-tagging page
(src/pages/PhotoTagging/PhotoTaggingPage.tsx).

The page is embedded shallowly: every stateful handler becomes a pure
function from its inputs (route parameters, current component state, the
backend response it would receive) to the resulting state and the list of
network requests it issues.  JavaScript strings are Lean `String`s; the
string operations the page uses (single-character split, substring test,
lower-casing, blank test) are implemented structurally on the underlying
character list so that concrete instances reduce in the kernel.
-/

/-! ## JavaScript string primitives -/

/-- JS falsy-or-default on an optional string: `x || dflt` returns `dflt`
when the field is absent or the empty string. -/
def jsOrDefault (m : Option String) (dflt : String) : String :=
  match m with
  | none => dflt
  | some v => if v = "" then dflt else v

/-- JS truthiness test `!x` for an optional string route parameter:
true when the parameter is absent or empty. -/
def jsFalsyStr (s : Option String) : Bool :=
  match s with
  | none => true
  | some v => decide (v = "")

/-- JS `str.split('#')` on the character list: splits at every `'#'`,
keeping empty segments, and yields one segment even for the empty string. -/
def jsSplitHash (cs : List Char) : List (List Char) :=
  match cs with
  | [] => [[]]
  | c :: rest =>
    if c = '#' then [] :: jsSplitHash rest
    else
      match jsSplitHash rest with
      | [] => [[c]]
      | r :: rs => (c :: r) :: rs

/-- Substring test on character lists: `needle` occurs contiguously in
`hay` (JS `String.prototype.includes`). -/
def subChars (needle : List Char) : List Char → Bool
  | [] => needle.isEmpty
  | c :: rest => needle.isPrefixOf (c :: rest) || subChars needle rest

/-- JS `hay.includes(needle)`. -/
def jsIncludes (hay needle : String) : Bool :=
  subChars needle.data hay.data

/-- JS `s.toLowerCase()` (ASCII, which is all the page compares). -/
def jsToLower (s : String) : String :=
  String.mk (s.data.map Char.toLower)

/-- JS `s.trim() === ''`: the string is empty or whitespace-only. -/
def isBlank (s : String) : Bool :=
  s.data.all (fun c => c.isWhitespace)

/-! ## Data model (interfaces `UserDetails`, `AttendeeForTagging`) -/

/-- Profile record fetched per user (`interface UserDetails`). -/
structure UserDetails where
  id : String
  email : String
  firstName : String
  lastName : String
deriving Repr, DecidableEq

/-- View-model entry for one event attendee
(`interface AttendeeForTagging`). -/
structure AttendeeForTagging where
  PK : String
  SK : String
  userId : String
  role : String
  joinDate : Option String
  organizationName : String
  eventId : String
  userDetails : Option UserDetails
  isLoadingDetails : Bool
deriving Repr, DecidableEq

/-- Shape of one raw entry of the attendee-list fetch: either a plain
identifier string or an object with an optional `userId` field. -/
inductive RawAttendee where
  | str (s : String)
  | obj (userId : Option String)
deriving Repr, DecidableEq

/-! ## Attendee loader (`fetchInitialAttendees`, lines 127-150) -/

/-- Normalization of one raw attendee entry to a bare user-ID string
(lines 128-133): a string containing `'#'` becomes `split('#')[1]`,
any other string maps to itself, and an object contributes
`userId || ''`. -/
def normalizeRawId : RawAttendee → String
  | RawAttendee.str s =>
    if s.data.contains '#' then
      String.mk (((jsSplitHash s.data).get? 1).getD [])
    else s
  | RawAttendee.obj u => jsOrDefault u ""

/-- Construction of one attendee record from a raw entry
(lines 135-144). -/
def mkAttendee (orgId eventId : String) (raw : RawAttendee) : AttendeeForTagging :=
  let userId := normalizeRawId raw
  { PK := "USER#" ++ userId
    SK := "EVENT#" ++ eventId
    userId := userId
    role := "MEMBER"
    joinDate := none
    organizationName := orgId
    eventId := eventId
    userDetails := none
    isLoadingDetails := true }

/-- The constructed attendee list: map every raw entry and drop the
entries whose normalized ID is empty (`.filter(att => att.userId)`,
line 145). -/
def buildInitialAttendeeList (orgId eventId : String)
    (attendeeIds : List RawAttendee) : List AttendeeForTagging :=
  (attendeeIds.map (mkAttendee orgId eventId)).filter
    (fun att => att.userId ≠ "")

/-- The claim side of C4, written from the specification words: the text
after the separator, i.e. everything following the first `'#'`. -/
def dropThroughHash : List Char → List Char
  | [] => []
  | c :: cs => if c = '#' then cs else dropThroughHash cs

/-- Suffix after the separator, as the specification phrases it. -/
def specSuffixAfterSeparator (s : String) : String :=
  String.mk (dropThroughHash s.data)

/-- Per-attendee detail-fetch completion (lines 156-162): the functional
update applied to the attendee list when the detail fetch for `uid`
resolves with `details` (a profile on success, `none` on failure). -/
def updateAttendeeDetails (uid : String) (details : Option UserDetails)
    (l : List AttendeeForTagging) : List AttendeeForTagging :=
  l.map (fun a =>
    if a.userId = uid then
      { a with userDetails := details, isLoadingDetails := false }
    else a)

/-! ## Filter / pager (`applyFilter`, `handleLoadMore`, `visibleAttendees`) -/

/-- The page size (`initialDisplayCount`, line 55). -/
def initialDisplayCount : Nat := 12

/-- The filter of lines 180-199: blank search keeps everything; otherwise
keep an attendee iff the lower-cased term occurs in the raw ID while
details load, in the full name or email once details resolved, or in the
raw ID as fallback when the detail fetch failed. -/
def applyFilter (attendees : List AttendeeForTagging) (searchTerm : String) :
    List AttendeeForTagging :=
  if isBlank searchTerm then attendees
  else
    let searchLower := jsToLower searchTerm
    attendees.filter (fun attendee =>
      if attendee.isLoadingDetails then
        jsIncludes (jsToLower attendee.userId) searchLower
      else
        match attendee.userDetails with
        | some d =>
          jsIncludes (jsToLower (d.firstName ++ " " ++ d.lastName)) searchLower
            || jsIncludes (jsToLower d.email) searchLower
        | none => jsIncludes (jsToLower attendee.userId) searchLower)

/-- The matching rule of claim C6, written from the specification words,
one attendee at a time. -/
def keptBySearchSpec (searchTerm : String) (a : AttendeeForTagging) : Bool :=
  if a.isLoadingDetails then
    jsIncludes (jsToLower a.userId) (jsToLower searchTerm)
  else
    match a.userDetails with
    | some d =>
      jsIncludes (jsToLower (d.firstName ++ " " ++ d.lastName)) (jsToLower searchTerm)
        || jsIncludes (jsToLower d.email) (jsToLower searchTerm)
    | none => jsIncludes (jsToLower a.userId) (jsToLower searchTerm)

/-- Pagination state: current display count and the has-more flag. -/
structure PageState where
  displayCount : Nat
  hasMore : Bool
deriving Repr, DecidableEq

/-- Initial pagination state for a list of `n` attendees
(lines 149-150): `displayCount = min n 12`, `hasMore = n > 12`. -/
def initPageState (n : Nat) : PageState :=
  { displayCount := min n initialDisplayCount
    hasMore := decide (n > initialDisplayCount) }

/-- `handleLoadMore` (lines 215-222): grow the display count by one page
size, capped at the filtered length, and recompute has-more. -/
def handleLoadMore (filteredLength : Nat) (s : PageState) : PageState :=
  let newDisplayCount := min (s.displayCount + initialDisplayCount) filteredLength
  { displayCount := newDisplayCount
    hasMore := decide (newDisplayCount < filteredLength) }

/-- The visible window (line 212): `filteredAttendees.slice(0, displayCount)`. -/
def visibleAttendees (filtered : List AttendeeForTagging) (displayCount : Nat) :
    List AttendeeForTagging :=
  filtered.take displayCount

/-- Derived view state published by the filter effect. -/
structure ViewState where
  filtered : List AttendeeForTagging
  displayCount : Nat
  hasMore : Bool
deriving Repr, DecidableEq

/-- The whole filter effect (lines 180-205): recompute the filtered list
and reset the pagination window from its length. -/
def applyFilterEffect (attendees : List AttendeeForTagging) (searchTerm : String) :
    ViewState :=
  let filtered := applyFilter attendees searchTerm
  { filtered := filtered
    displayCount := min filtered.length initialDisplayCount
    hasMore := decide (filtered.length > initialDisplayCount) }

/-- Render condition of the Load More control (line 436):
`!searchTerm && hasMore`. -/
def loadMoreRendered (searchTerm : String) (hasMore : Bool) : Bool :=
  decide (searchTerm = "") && hasMore

/-! ## Selection tracker (`handleMemberSelect`, lines 236-244) -/

/-- Toggle one user ID in the selection: remove every occurrence when
present, append when absent. -/
def handleMemberSelect (userId : String) (prev : List String) : List String :=
  if prev.contains userId then prev.filter (fun id => id ≠ userId)
  else prev ++ [userId]

/-- The selection reached from the empty set by a sequence of toggles. -/
def selectionAfter (ops : List String) : List String :=
  ops.foldl (fun acc uid => handleMemberSelect uid acc) []

/-! ## Tag submitter (`handleSubmitTags`, lines 247-284) -/

/-- One POST request as issued by the page. -/
structure PostRequest where
  url : String
  userIds : List String
deriving Repr, DecidableEq

/-- The backend response to the tag request. -/
inductive TagResponse where
  | ok
  | fail (message : Option String)
deriving Repr, DecidableEq

/-- Result of one `handleSubmitTags` invocation: the requests issued, the
final alert state, the selection afterwards, and the scheduled
navigation (delay in milliseconds and target path), if any. -/
structure SubmitOutcome where
  posts : List PostRequest
  error : Option String
  success : Option String
  selectedAfter : List String
  navDelayMs : Option Nat
  navTarget : Option String
deriving Repr, DecidableEq

/-- The tag endpoint path (line 264). -/
def tagEndpoint (o e p : String) : String :=
  "/organizations/" ++ o ++ "/events/" ++ e ++ "/photos/" ++ p ++ "/tags"

/-- The photo detail path (line 275), the navigation target. -/
def photoDetailPath (o e p : String) : String :=
  "/organizations/" ++ o ++ "/events/" ++ e ++ "/photos/" ++ p

/-- `handleSubmitTags`: empty selection and missing route identifiers are
rejected, in that order, without any request; otherwise one POST is
issued whose body carries the selection, and the response decides
between the success path (message, cleared selection, navigation after
1500 ms) and the failure path (backend message or generic fallback,
selection kept). -/
def handleSubmitTags (orgId eventId photoId : Option String)
    (selectedMembers : List String) (resp : TagResponse) : SubmitOutcome :=
  if selectedMembers.length = 0 then
    { posts := []
      error := some "Please select at least one member to tag"
      success := none
      selectedAfter := selectedMembers
      navDelayMs := none
      navTarget := none }
  else if jsFalsyStr orgId || jsFalsyStr eventId || jsFalsyStr photoId then
    { posts := []
      error := some "Missing organization, event, or photo ID"
      success := none
      selectedAfter := selectedMembers
      navDelayMs := none
      navTarget := none }
  else
    let o := orgId.getD ""
    let e := eventId.getD ""
    let p := photoId.getD ""
    let req : PostRequest := { url := tagEndpoint o e p, userIds := selectedMembers }
    match resp with
    | TagResponse.ok =>
      { posts := [req]
        error := none
        success := some "Members tagged successfully!"
        selectedAfter := []
        navDelayMs := some 1500
        navTarget := some (photoDetailPath o e p) }
    | TagResponse.fail m =>
      { posts := [req]
        error := some (jsOrDefault m "Failed to tag members. Please try again.")
        success := none
        selectedAfter := selectedMembers
        navDelayMs := none
        navTarget := none }

/-! ## Theorems -/

/-- Claim C1: with a non-empty selection and all three route identifiers
present, `handleSubmitTags` issues exactly one POST to the photo's tag
endpoint whose body's `userIds` equals the current selection, and on a
success response shows the success message, clears the selection, and
schedules navigation to the photo detail view after 1500 ms. -/
theorem submit_success_posts_once_and_clears_selection
    (o e p : String) (ho : o ≠ "") (he : e ≠ "") (hp : p ≠ "")
    (sel : List String) (hsel : sel ≠ []) :
    (handleSubmitTags (some o) (some e) (some p) sel TagResponse.ok).posts
      = [{ url := tagEndpoint o e p, userIds := sel }]
    ∧ (handleSubmitTags (some o) (some e) (some p) sel TagResponse.ok).success
      = some "Members tagged successfully!"
    ∧ (handleSubmitTags (some o) (some e) (some p) sel TagResponse.ok).selectedAfter = []
    ∧ (handleSubmitTags (some o) (some e) (some p) sel TagResponse.ok).navDelayMs = some 1500
    ∧ (handleSubmitTags (some o) (some e) (some p) sel TagResponse.ok).navTarget
      = some (photoDetailPath o e p) := by
  simp [handleSubmitTags, jsFalsyStr, ho, he, hp, List.length_eq_zero, hsel]

/-- Witness for C1 at a concrete input. -/
theorem submit_success_posts_once_and_clears_selection_witness :
    (("org1" : String) ≠ "" ∧ ("ev1" : String) ≠ "" ∧ ("ph1" : String) ≠ ""
      ∧ (["u1", "u2"] : List String) ≠ [])
    ∧ ((handleSubmitTags (some "org1") (some "ev1") (some "ph1") ["u1", "u2"]
          TagResponse.ok).posts
        = [{ url := tagEndpoint "org1" "ev1" "ph1", userIds := ["u1", "u2"] }]
      ∧ (handleSubmitTags (some "org1") (some "ev1") (some "ph1") ["u1", "u2"]
          TagResponse.ok).success = some "Members tagged successfully!"
      ∧ (handleSubmitTags (some "org1") (some "ev1") (some "ph1") ["u1", "u2"]
          TagResponse.ok).selectedAfter = []
      ∧ (handleSubmitTags (some "org1") (some "ev1") (some "ph1") ["u1", "u2"]
          TagResponse.ok).navDelayMs = some 1500
      ∧ (handleSubmitTags (some "org1") (some "ev1") (some "ph1") ["u1", "u2"]
          TagResponse.ok).navTarget = some (photoDetailPath "org1" "ev1" "ph1")) :=
  ⟨⟨by decide, by decide, by decide, by decide⟩,
    submit_success_posts_once_and_clears_selection "org1" "ev1" "ph1"
      (by decide) (by decide) (by decide) ["u1", "u2"] (by decide)⟩

/-- Claim C2: an empty selection yields the select-at-least-one error and
no request; with a non-empty selection, a missing route identifier yields
the distinct missing-identifiers error and no request; a missing
identifier never lets a request through; and the two error strings
differ. -/
theorem submit_precondition_errors
    (orgId eventId photoId : Option String) (sel : List String) (resp : TagResponse) :
    (sel = [] →
      (handleSubmitTags orgId eventId photoId sel resp).error
        = some "Please select at least one member to tag"
      ∧ (handleSubmitTags orgId eventId photoId sel resp).posts = [])
    ∧ (sel ≠ [] → (orgId = none ∨ eventId = none ∨ photoId = none) →
      (handleSubmitTags orgId eventId photoId sel resp).error
        = some "Missing organization, event, or photo ID"
      ∧ (handleSubmitTags orgId eventId photoId sel resp).posts = [])
    ∧ ((orgId = none ∨ eventId = none ∨ photoId = none) →
      (handleSubmitTags orgId eventId photoId sel resp).posts = [])
    ∧ ("Please select at least one member to tag" : String)
        ≠ "Missing organization, event, or photo ID" := by
  refine ⟨?_, ?_, ?_, by decide⟩
  · intro h
    subst h
    simp [handleSubmitTags]
  · intro hsel hmiss
    have hb : (jsFalsyStr orgId || jsFalsyStr eventId || jsFalsyStr photoId) = true := by
      rcases hmiss with h | h | h <;> subst h <;> simp [jsFalsyStr]
    simp [handleSubmitTags, List.length_eq_zero, hsel, hb]
  · intro hmiss
    by_cases hsel : sel = []
    · subst hsel
      simp [handleSubmitTags]
    · have hb : (jsFalsyStr orgId || jsFalsyStr eventId || jsFalsyStr photoId) = true := by
        rcases hmiss with h | h | h <;> subst h <;> simp [jsFalsyStr]
      simp [handleSubmitTags, List.length_eq_zero, hsel, hb]

/-- Witness for C2 at concrete inputs: both precondition branches. -/
theorem submit_precondition_errors_witness :
    ((handleSubmitTags (some "o") (some "e") (some "p") [] TagResponse.ok).error
      = some "Please select at least one member to tag"
    ∧ (handleSubmitTags (some "o") (some "e") (some "p") [] TagResponse.ok).posts = [])
    ∧ ((handleSubmitTags none (some "e") (some "p") ["u1"] TagResponse.ok).error
      = some "Missing organization, event, or photo ID"
    ∧ (handleSubmitTags none (some "e") (some "p") ["u1"] TagResponse.ok).posts = []) :=
  ⟨(submit_precondition_errors (some "o") (some "e") (some "p") [] TagResponse.ok).1 rfl,
    (submit_precondition_errors none (some "e") (some "p") ["u1"] TagResponse.ok).2.1
      (by decide) (Or.inl rfl)⟩

/-- Claim C3: on a failed tag submission the selection is left unchanged
(the one request was still issued), no success or navigation is
scheduled, the backend's non-empty message is shown when provided, and
the generic failure message is shown when the response carries no usable
message. -/
theorem submit_failure_shows_message_and_keeps_selection
    (o e p : String) (ho : o ≠ "") (he : e ≠ "") (hp : p ≠ "")
    (sel : List String) (hsel : sel ≠ []) (m : Option String) :
    (handleSubmitTags (some o) (some e) (some p) sel (TagResponse.fail m)).selectedAfter = sel
    ∧ (handleSubmitTags (some o) (some e) (some p) sel (TagResponse.fail m)).posts
      = [{ url := tagEndpoint o e p, userIds := sel }]
    ∧ (handleSubmitTags (some o) (some e) (some p) sel (TagResponse.fail m)).success = none
    ∧ (handleSubmitTags (some o) (some e) (some p) sel (TagResponse.fail m)).navDelayMs = none
    ∧ (∀ x, m = some x → x ≠ "" →
        (handleSubmitTags (some o) (some e) (some p) sel (TagResponse.fail m)).error = some x)
    ∧ (m = none →
        (handleSubmitTags (some o) (some e) (some p) sel (TagResponse.fail m)).error
          = some "Failed to tag members. Please try again.")
    ∧ (m = some "" →
        (handleSubmitTags (some o) (some e) (some p) sel (TagResponse.fail m)).error
          = some "Failed to tag members. Please try again.") := by
  refine ⟨?_, ?_, ?_, ?_, ?_, ?_, ?_⟩
  · simp [handleSubmitTags, jsFalsyStr, ho, he, hp, List.length_eq_zero, hsel]
  · simp [handleSubmitTags, jsFalsyStr, ho, he, hp, List.length_eq_zero, hsel]
  · simp [handleSubmitTags, jsFalsyStr, ho, he, hp, List.length_eq_zero, hsel]
  · simp [handleSubmitTags, jsFalsyStr, ho, he, hp, List.length_eq_zero, hsel]
  · intro x hm hx
    subst hm
    simp [handleSubmitTags, jsFalsyStr, ho, he, hp, List.length_eq_zero, hsel, jsOrDefault, hx]
  · intro hm
    subst hm
    simp [handleSubmitTags, jsFalsyStr, ho, he, hp, List.length_eq_zero, hsel, jsOrDefault]
  · intro hm
    subst hm
    simp [handleSubmitTags, jsFalsyStr, ho, he, hp, List.length_eq_zero, hsel, jsOrDefault]

/-- Witness for C3 at a concrete input with a backend message. -/
theorem submit_failure_shows_message_and_keeps_selection_witness :
    (["u1"] : List String) ≠ []
    ∧ (handleSubmitTags (some "o") (some "e") (some "p") ["u1"]
        (TagResponse.fail (some "Boom"))).selectedAfter = ["u1"]
    ∧ (handleSubmitTags (some "o") (some "e") (some "p") ["u1"]
        (TagResponse.fail (some "Boom"))).error = some "Boom" :=
  ⟨by decide,
    (submit_failure_shows_message_and_keeps_selection "o" "e" "p"
      (by decide) (by decide) (by decide) ["u1"] (by decide) (some "Boom")).1,
    (submit_failure_shows_message_and_keeps_selection "o" "e" "p"
      (by decide) (by decide) (by decide) ["u1"] (by decide) (some "Boom")).2.2.2.2.1
      "Boom" rfl (by decide)⟩

/-! Helper lemmas about the split embedding, shared by the normalization
theorems. -/

lemma jsSplitHash_ne_nil (cs : List Char) : jsSplitHash cs ≠ [] := by
  induction cs with
  | nil => simp [jsSplitHash]
  | cons c rest ih =>
    unfold jsSplitHash
    by_cases h : c = '#'
    · simp [h]
    · simp only [if_neg h]
      cases hr : jsSplitHash rest <;> simp

lemma jsSplitHash_first (B : List Char) :
    (jsSplitHash B).get? 0 = some (B.takeWhile (fun c => c ≠ '#')) := by
  induction B with
  | nil => rfl
  | cons c rest ih =>
    unfold jsSplitHash
    by_cases h : c = '#'
    · simp [h]
    · simp only [if_neg h]
      cases hr : jsSplitHash rest with
      | nil => exact absurd hr (jsSplitHash_ne_nil rest)
      | cons r rs =>
        rw [hr] at ih
        simp only [List.get?_cons_zero, Option.some.injEq] at ih
        simp [List.takeWhile_cons, h, ih]

lemma jsSplitHash_append (A B : List Char) (hA : '#' ∉ A) :
    jsSplitHash (A ++ '#' :: B) = A :: jsSplitHash B := by
  induction A with
  | nil => simp [jsSplitHash]
  | cons c A2 ih =>
    have hc : c ≠ '#' := fun h => hA (by simp [h])
    have hA2 : '#' ∉ A2 := fun h => hA (List.mem_cons_of_mem _ h)
    rw [List.cons_append]
    conv_lhs => unfold jsSplitHash
    simp only [if_neg hc, ih hA2]

/-- Claim C4 counterexample: the specification says a string containing
the separator maps to the suffix after the separator, but on a string
with two separators the code takes `split('#')[1]`, the segment between
the first and second separator, not the suffix. -/
theorem normalization_not_suffix_counterexample :
    normalizeRawId (RawAttendee.str "USER#alice#bob") = "alice"
    ∧ specSuffixAfterSeparator "USER#alice#bob" = "alice#bob"
    ∧ normalizeRawId (RawAttendee.str "USER#alice#bob")
        ≠ specSuffixAfterSeparator "USER#alice#bob" :=
  ⟨by decide, by decide, by decide⟩

/-- Claim C4, amended: a plain string without the separator maps to
itself; a string of the form `A ++ "#" ++ B` (first separator after `A`)
maps to the longest separator-free segment at the start of `B` -- the
full suffix after the separator only when that suffix has no further
separator; an object maps to its `userId` field (empty when absent); and
every entry whose normalized ID is empty is excluded from the
constructed attendee list. -/
theorem normalization_amended
    (s : String) (hs : s.data.contains '#' = false)
    (u : Option String) (orgId eventId : String) (raws : List RawAttendee) :
    normalizeRawId (RawAttendee.str s) = s
    ∧ (∀ A B : List Char, '#' ∉ A →
        normalizeRawId (RawAttendee.str (String.mk (A ++ '#' :: B)))
          = String.mk (B.takeWhile (fun c => c ≠ '#')))
    ∧ normalizeRawId (RawAttendee.obj u) = u.getD ""
    ∧ ∀ a ∈ buildInitialAttendeeList orgId eventId raws, a.userId ≠ "" := by
  refine ⟨?_, ?_, ?_, ?_⟩
  · have hs2 : '#' ∉ s.data := by simpa using hs
    simp [normalizeRawId, hs2]
  · intro A B hA
    have hc : ((A ++ '#' :: B).contains '#') = true := by simp
    have hdata : (String.mk (A ++ '#' :: B)).data = A ++ '#' :: B := rfl
    simp only [normalizeRawId, hdata, hc, if_true, jsSplitHash_append A B hA,
      List.get?_cons_succ, jsSplitHash_first, Option.getD_some]
  · cases u with
    | none => rfl
    | some v =>
      by_cases hv : v = "" <;> simp [normalizeRawId, jsOrDefault, hv]
  · intro a ha
    simp only [buildInitialAttendeeList, List.mem_filter, decide_not] at ha
    simpa using ha.2

/-- Witness for the amended C4 at concrete inputs. -/
theorem normalization_amended_witness :
    ("plain".data.contains '#' = false)
    ∧ normalizeRawId (RawAttendee.str "plain") = "plain"
    ∧ normalizeRawId (RawAttendee.str (String.mk (['U', 'S'] ++ '#' :: ['x', '#', 'y'])))
        = String.mk (['x', '#', 'y'].takeWhile (fun c => c ≠ '#'))
    ∧ normalizeRawId (RawAttendee.obj (some "z")) = (some "z").getD "" :=
  ⟨by decide,
    (normalization_amended "plain" (by decide) (some "z") "o" "e" []).1,
    (normalization_amended "plain" (by decide) (some "z") "o" "e" []).2.1
      ['U', 'S'] ['x', '#', 'y'] (by decide),
    (normalization_amended "plain" (by decide) (some "z") "o" "e" []).2.2.1⟩

/-- The user IDs of the constructed attendee list are exactly the
normalized raw IDs with the empty ones filtered out, in order. -/
lemma map_userId_build (orgId eventId : String) (raws : List RawAttendee) :
    ((buildInitialAttendeeList orgId eventId raws).map (fun a => a.userId))
      = (raws.map normalizeRawId).filter (fun s => s ≠ "") := by
  induction raws with
  | nil => simp [buildInitialAttendeeList]
  | cons r rs ih =>
    simp only [buildInitialAttendeeList, List.map_cons, List.filter_cons] at ih ⊢
    by_cases h : normalizeRawId r = ""
    · simp [mkAttendee, h]
      simpa using ih
    · simp [mkAttendee, h]
      simpa using ih

/-- Claim C5 counterexample: the code performs no deduplication, so a raw
list repeating one identifier yields two attendee entries with the same
`userId`, refuting "exactly one entry per unique non-empty userId". -/
theorem attendee_list_duplicates_counterexample :
    ((buildInitialAttendeeList "org1" "ev1"
        [RawAttendee.str "u1", RawAttendee.str "u1"]).map (fun a => a.userId))
      = ["u1", "u1"]
    ∧ ¬ ((buildInitialAttendeeList "org1" "ev1"
        [RawAttendee.str "u1", RawAttendee.str "u1"]).map (fun a => a.userId)).Nodup
    ∧ (buildInitialAttendeeList "org1" "ev1"
        [RawAttendee.str "u1", RawAttendee.str "u1"]).length = 2 :=
  ⟨by decide, by decide, by decide⟩

/-- Claim C5, amended: unconditionally, the constructed list carries one
entry per raw entry with a non-empty normalized ID, in order and
without deduplication; entries with an empty normalized ID are dropped;
and the constructed userIds are pairwise distinct exactly when the
non-empty normalized raw IDs are. -/
theorem attendee_list_userIds_amended
    (orgId eventId : String) (raws : List RawAttendee) :
    ((buildInitialAttendeeList orgId eventId raws).map (fun a => a.userId))
      = (raws.map normalizeRawId).filter (fun s => s ≠ "")
    ∧ (((buildInitialAttendeeList orgId eventId raws).map (fun a => a.userId)).Nodup
        ↔ ((raws.map normalizeRawId).filter (fun s => s ≠ "")).Nodup)
    ∧ ∀ a ∈ buildInitialAttendeeList orgId eventId raws, a.userId ≠ "" := by
  refine ⟨map_userId_build orgId eventId raws, ?_, ?_⟩
  · rw [map_userId_build]
  · intro a ha
    simp only [buildInitialAttendeeList, List.mem_filter, decide_not] at ha
    simpa using ha.2

/-- Witness for the amended C5 at a concrete input that repeats a raw
identifier, the shape the deduplication-free clause is about. -/
theorem attendee_list_userIds_amended_witness :
    ((buildInitialAttendeeList "o1" "e1"
        [RawAttendee.str "u1", RawAttendee.str "u1", RawAttendee.obj none]).map
          (fun a => a.userId))
      = (([RawAttendee.str "u1", RawAttendee.str "u1", RawAttendee.obj none].map
          normalizeRawId).filter (fun s => s ≠ ""))
    ∧ (((buildInitialAttendeeList "o1" "e1"
        [RawAttendee.str "u1", RawAttendee.str "u1", RawAttendee.obj none]).map
          (fun a => a.userId)).Nodup
        ↔ (([RawAttendee.str "u1", RawAttendee.str "u1", RawAttendee.obj none].map
            normalizeRawId).filter (fun s => s ≠ "")).Nodup) :=
  ⟨(attendee_list_userIds_amended "o1" "e1"
      [RawAttendee.str "u1", RawAttendee.str "u1", RawAttendee.obj none]).1,
    (attendee_list_userIds_amended "o1" "e1"
      [RawAttendee.str "u1", RawAttendee.str "u1", RawAttendee.obj none]).2.1⟩

/-- Claim C6: the filter keeps everything when the search term is blank
(empty or whitespace-only) and otherwise keeps exactly the attendees
matched by the case-insensitive rule of the specification: raw ID while
details load, full name or email once resolved, raw ID as fallback when
the detail fetch failed. -/
theorem filter_matches_search_spec
    (attendees : List AttendeeForTagging) (searchTerm : String) :
    applyFilter attendees searchTerm
      = (if isBlank searchTerm then attendees
         else attendees.filter (keptBySearchSpec searchTerm)) := by
  by_cases h : isBlank searchTerm
  · simp [applyFilter, h]
  · simp only [applyFilter]
    rw [if_neg h, if_neg h]
    rfl

/-- Claim C7: with page size 12 the initial window shows `min n 12`
entries and has-more holds iff `n > 12`; each load-more grows the
display count by exactly one page size, capped at the filtered length,
and has-more is false exactly when the cap is reached. -/
theorem pagination_window (n d len : Nat) (filtered : List AttendeeForTagging)
    (hlen : filtered.length = len) (hd : d ≤ len) (hmb : Bool) :
    (initPageState n).displayCount = min n 12
    ∧ ((initPageState n).hasMore = true ↔ 12 < n)
    ∧ (visibleAttendees filtered (initPageState len).displayCount).length = min len 12
    ∧ (d + 12 ≤ len →
        (handleLoadMore len { displayCount := d, hasMore := hmb }).displayCount = d + 12)
    ∧ (len ≤ d + 12 →
        (handleLoadMore len { displayCount := d, hasMore := hmb }).displayCount = len
        ∧ (handleLoadMore len { displayCount := d, hasMore := hmb }).hasMore = false)
    ∧ ((handleLoadMore len { displayCount := d, hasMore := hmb }).hasMore = false
        ↔ (handleLoadMore len { displayCount := d, hasMore := hmb }).displayCount = len) := by
  refine ⟨rfl, ?_, ?_, ?_, ?_, ?_⟩
  · simp [initPageState, initialDisplayCount]
  · simp only [visibleAttendees, initPageState, initialDisplayCount, List.length_take]
    omega
  · intro h
    simp only [handleLoadMore, initialDisplayCount]
    omega
  · intro h
    constructor
    · simp only [handleLoadMore, initialDisplayCount]
      omega
    · simp only [handleLoadMore, initialDisplayCount, decide_eq_false_iff_not]
      omega
  · simp only [handleLoadMore, initialDisplayCount, decide_eq_false_iff_not]
    omega

/-- Witness for C7 at concrete inputs: one attendee, load-more reaching
the cap. -/
theorem pagination_window_witness :
    ([mkAttendee "o" "e" (RawAttendee.str "x")].length = 1)
    ∧ (0 ≤ 1)
    ∧ (initPageState 30).displayCount = min 30 12
    ∧ (visibleAttendees [mkAttendee "o" "e" (RawAttendee.str "x")]
        (initPageState 1).displayCount).length = min 1 12
    ∧ ((handleLoadMore 1 { displayCount := 0, hasMore := true }).displayCount = 1
      ∧ (handleLoadMore 1 { displayCount := 0, hasMore := true }).hasMore = false) :=
  ⟨rfl, by decide,
    (pagination_window 30 0 1 [mkAttendee "o" "e" (RawAttendee.str "x")]
      rfl (by decide) true).1,
    (pagination_window 30 0 1 [mkAttendee "o" "e" (RawAttendee.str "x")]
      rfl (by decide) true).2.2.1,
    (pagination_window 30 0 1 [mkAttendee "o" "e" (RawAttendee.str "x")]
      rfl (by decide) true).2.2.2.2.1 (by decide)⟩

/-- Claim C8: completing the detail fetch for one attendee in a list with
unique user IDs updates exactly that attendee's entry (details stored,
loading flag cleared) and leaves every other position unchanged; the
matching position is unique. -/
theorem detail_update_frame (l : List AttendeeForTagging) (uid : String)
    (details : Option UserDetails)
    (h : (l.map (fun a => a.userId)).Nodup) :
    (updateAttendeeDetails uid details l).length = l.length
    ∧ (∀ (i : Nat) (a : AttendeeForTagging), l[i]? = some a → a.userId = uid →
        (updateAttendeeDetails uid details l)[i]?
          = some { a with userDetails := details, isLoadingDetails := false })
    ∧ (∀ (i : Nat) (a : AttendeeForTagging), l[i]? = some a → a.userId ≠ uid →
        (updateAttendeeDetails uid details l)[i]? = some a)
    ∧ (∀ i j (hi : i < l.length) (hj : j < l.length),
        (l.get ⟨i, hi⟩).userId = uid → (l.get ⟨j, hj⟩).userId = uid → i = j) := by
  refine ⟨?_, ?_, ?_, ?_⟩
  · simp [updateAttendeeDetails]
  · intro i a ha hu
    simp [updateAttendeeDetails, List.getElem?_map, ha, hu]
  · intro i a ha hu
    simp [updateAttendeeDetails, List.getElem?_map, ha, hu]
  · intro i j hi hj hui huj
    have hinj := List.nodup_iff_injective_get.mp h
    have hi2 : i < (l.map (fun a => a.userId)).length := by simpa using hi
    have hj2 : j < (l.map (fun a => a.userId)).length := by simpa using hj
    have e1 : (l.map (fun a => a.userId)).get ⟨i, hi2⟩ = uid := by
      simpa using hui
    have e2 : (l.map (fun a => a.userId)).get ⟨j, hj2⟩ = uid := by
      simpa using huj
    have := hinj (e1.trans e2.symm)
    simpa using this

/-- Witness for C8 at a concrete two-attendee list with distinct IDs. -/
theorem detail_update_frame_witness :
    (([mkAttendee "o" "e" (RawAttendee.str "u1"),
        mkAttendee "o" "e" (RawAttendee.str "u2")].map (fun a => a.userId)).Nodup)
    ∧ (updateAttendeeDetails "u1" none
        [mkAttendee "o" "e" (RawAttendee.str "u1"),
          mkAttendee "o" "e" (RawAttendee.str "u2")]).length
      = [mkAttendee "o" "e" (RawAttendee.str "u1"),
          mkAttendee "o" "e" (RawAttendee.str "u2")].length
    ∧ (updateAttendeeDetails "u1" none
        [mkAttendee "o" "e" (RawAttendee.str "u1"),
          mkAttendee "o" "e" (RawAttendee.str "u2")])[1]?
      = some (mkAttendee "o" "e" (RawAttendee.str "u2")) :=
  ⟨by decide,
    (detail_update_frame
      [mkAttendee "o" "e" (RawAttendee.str "u1"),
        mkAttendee "o" "e" (RawAttendee.str "u2")] "u1" none (by decide)).1,
    (detail_update_frame
      [mkAttendee "o" "e" (RawAttendee.str "u1"),
        mkAttendee "o" "e" (RawAttendee.str "u2")] "u1" none (by decide)).2.2.1
      1 (mkAttendee "o" "e" (RawAttendee.str "u2")) (by decide) (by decide)⟩

/-- Claim C9: with a non-empty search term the Load More control is not
rendered whatever the has-more flag, and the window published by the
filter effect is the first `min (filtered length) 12` entries of the
filtered list. -/
theorem search_hides_load_more (searchTerm : String) (h : searchTerm ≠ "")
    (attendees : List AttendeeForTagging) (hm : Bool) :
    loadMoreRendered searchTerm hm = false
    ∧ visibleAttendees (applyFilterEffect attendees searchTerm).filtered
        (applyFilterEffect attendees searchTerm).displayCount
      = (applyFilter attendees searchTerm).take
          (min (applyFilter attendees searchTerm).length 12)
    ∧ (visibleAttendees (applyFilterEffect attendees searchTerm).filtered
        (applyFilterEffect attendees searchTerm).displayCount).length
      = min (applyFilter attendees searchTerm).length 12 := by
  refine ⟨?_, rfl, ?_⟩
  · simp [loadMoreRendered, h]
  · simp only [visibleAttendees, applyFilterEffect, initialDisplayCount, List.length_take]
    omega

/-- Witness for C9 at a concrete search term. -/
theorem search_hides_load_more_witness :
    ("x" : String) ≠ ""
    ∧ loadMoreRendered "x" true = false
    ∧ (visibleAttendees (applyFilterEffect [] "x").filtered
        (applyFilterEffect [] "x").displayCount).length
      = min (applyFilter [] "x").length 12 :=
  ⟨by decide,
    (search_hides_load_more "x" (by decide) [] true).1,
    (search_hides_load_more "x" (by decide) [] true).2.2⟩

/-- One toggle keeps the selection free of duplicates. -/
lemma select_preserves_nodup (uid : String) (l : List String) (h : l.Nodup) :
    (handleMemberSelect uid l).Nodup := by
  unfold handleMemberSelect
  by_cases hc : l.contains uid = true
  · simp only [hc, if_true]
    exact h.filter _
  · simp only [hc, if_false]
    have hm : uid ∉ l := by simpa using hc
    simp [List.nodup_append, h, hm]

/-- Every request the submit handler issues carries exactly the current
selection as its body. -/
lemma posts_carry_selection (orgId eventId photoId : Option String)
    (sel : List String) (resp : TagResponse) (r : PostRequest)
    (hr : r ∈ (handleSubmitTags orgId eventId photoId sel resp).posts) :
    r.userIds = sel := by
  unfold handleSubmitTags at hr
  by_cases h1 : sel.length = 0
  · simp [h1] at hr
  · by_cases h2 : (jsFalsyStr orgId || jsFalsyStr eventId || jsFalsyStr photoId) = true
    · simp [h1, h2] at hr
    · cases resp with
      | ok =>
        simp [h1, h2] at hr
        rw [hr]
      | fail m =>
        simp [h1, h2] at hr
        rw [hr]

/-- Claim C10: from the empty selection, any sequence of toggles yields a
duplicate-free selection, and therefore every POST body the submit
handler issues from such a selection carries a duplicate-free
`userIds` list. -/
theorem selection_toggles_nodup (ops : List String) :
    (selectionAfter ops).Nodup
    ∧ ∀ (orgId eventId photoId : Option String) (resp : TagResponse)
        (r : PostRequest),
        r ∈ (handleSubmitTags orgId eventId photoId (selectionAfter ops) resp).posts →
        r.userIds.Nodup := by
  have key : ∀ (os : List String) (l : List String), l.Nodup →
      (os.foldl (fun acc uid => handleMemberSelect uid acc) l).Nodup := by
    intro os
    induction os with
    | nil => intro l h; exact h
    | cons o os2 ih => intro l h; exact ih _ (select_preserves_nodup o l h)
  have hnd : (selectionAfter ops).Nodup := key ops [] List.nodup_nil
  refine ⟨hnd, ?_⟩
  intro o e p resp r hr
  rw [posts_carry_selection o e p _ resp r hr]
  exact hnd

/-- Witness for C10 at a concrete toggle sequence ending in one POST. -/
theorem selection_toggles_nodup_witness :
    (selectionAfter ["a", "b", "a"]).Nodup
    ∧ List.Nodup (["b"] : List String) :=
  ⟨(selection_toggles_nodup ["a", "b", "a"]).1,
    (selection_toggles_nodup ["a", "b", "a"]).2 (some "o") (some "e") (some "p")
      TagResponse.ok
      { url := "/organizations/o/events/e/photos/p/tags", userIds := ["b"] }
      (by decide)⟩
